import Mathlib

/-!
Verification development for the sales-dashboard analytics app (`src/app.py`).

The Python source is shallowly embedded: pandas `DataFrame`s become `Table`
(column labels plus raw rows of `Cell`s), the Databricks store becomes an
oracle `String → Except QueryError (List Row)`, Streamlit's session state and
per-run script become an explicit step function, and `st.cache_data`
memoization becomes an explicit association-list cache.
-/

namespace SalesApp

/-- One scalar value as delivered by the SQL store (a cell of a fetched row). -/
inductive Cell where
  | str : String → Cell
  | int : Int → Cell
  | null : Cell
deriving DecidableEq, Repr

/-- One fetched row: an ordered tuple of column values. -/
abbrev Row := List Cell

/-- A failure raised by the store / driver (the `Exception` caught in `app.py`). -/
structure QueryError where
  msg : String
deriving DecidableEq, Repr

/-- A pandas-style table: `pd.DataFrame(results, columns=[...])` keeps the raw
rows together with the list of column labels. -/
structure Table where
  cols : List String
  rows : List Row
deriving DecidableEq, Repr

/-- `pd.DataFrame()` — the empty frame with no columns, used by the error
fallbacks of the three stat fetchers. -/
def emptyDF : Table := ⟨[], []⟩

/-- Character-level body of `escape_sql_string`: `str(value).replace("'", "''")`
replaces each single quote by two single quotes and leaves every other
character unchanged. -/
def escapeChars : List Char → List Char
  | [] => []
  | c :: cs => if c = '\'' then '\'' :: '\'' :: escapeChars cs else c :: escapeChars cs

/-- `escape_sql_string` from `build_where_clause` (src/app.py:533-535). -/
def escape_sql_string (value : String) : String := ⟨escapeChars value.data⟩

/-- `FilterSelection`: the twelve optional filter fields, in the order of the
parameter lists of `build_where_clause` and the stat fetchers (src/app.py). -/
structure FilterSelection where
  region : Option String
  vertical : Option String
  organization : Option String
  industry : Option String
  account_status : Option String
  vendor : Option String
  device_category : Option String
  device_type_family : Option String
  device_subcategory : Option String
  model : Option String
  os_name : Option String
  mac_oui : Option String
deriving DecidableEq, Repr

/-- The `FilterSelection` with every field unset (every UI selectbox on "All"). -/
def emptyFilters : FilterSelection :=
  ⟨none, none, none, none, none, none, none, none, none, none, none, none⟩

/-- `if x is not None: where_conditions.append(g(x))` — the contribution of one
optional filter field to the accumulated condition list. -/
def optCond (o : Option String) (g : String → String) : List String :=
  match o with
  | some v => [g v]
  | none => []

/-- `" AND ".join(where_conditions) if where_conditions else "1=1"` — the final
line shared by both predicate builders. -/
def joinConds (where_conditions : List String) : String :=
  if where_conditions.isEmpty then "1=1" else String.intercalate " AND " where_conditions

/-- The `where_conditions` list accumulated by `build_where_clause`
(src/app.py:537-562): one condition per set field, in source order. -/
def whereConditions (fs : FilterSelection) : List String :=
  optCond fs.region (fun v => "region = '" ++ escape_sql_string v ++ "'") ++
  optCond fs.vertical (fun v => "vertical = '" ++ escape_sql_string v ++ "'") ++
  optCond fs.organization (fun v => "organization = '" ++ escape_sql_string v ++ "'") ++
  optCond fs.industry (fun v => "industry = '" ++ escape_sql_string v ++ "'") ++
  optCond fs.account_status (fun v => "account_status = '" ++ escape_sql_string v ++ "'") ++
  optCond fs.vendor (fun v => "vendor = '" ++ escape_sql_string v ++ "'") ++
  optCond fs.device_category (fun v => "device_category = '" ++ escape_sql_string v ++ "'") ++
  optCond fs.device_type_family (fun v => "device_type_family = '" ++ escape_sql_string v ++ "'") ++
  optCond fs.device_subcategory (fun v => "device_subcategory = '" ++ escape_sql_string v ++ "'") ++
  optCond fs.model (fun v => "model = '" ++ escape_sql_string v ++ "'") ++
  optCond fs.os_name (fun v => "os_name = '" ++ escape_sql_string v ++ "'") ++
  optCond fs.mac_oui (fun v => "array_contains(mac_oui_list, '" ++ escape_sql_string v ++ "')")

/-- `build_where_clause` (src/app.py:528-564). -/
def build_where_clause (fs : FilterSelection) : String :=
  joinConds (whereConditions fs)

/-- The `where_conditions` list accumulated by `build_where_clause_with_alias`
(src/app.py:575-600): every column reference is qualified by the alias. -/
def whereConditionsAlias (fs : FilterSelection) (al : String) : List String :=
  optCond fs.region (fun v => al ++ ".region = '" ++ escape_sql_string v ++ "'") ++
  optCond fs.vertical (fun v => al ++ ".vertical = '" ++ escape_sql_string v ++ "'") ++
  optCond fs.organization (fun v => al ++ ".organization = '" ++ escape_sql_string v ++ "'") ++
  optCond fs.industry (fun v => al ++ ".industry = '" ++ escape_sql_string v ++ "'") ++
  optCond fs.account_status (fun v => al ++ ".account_status = '" ++ escape_sql_string v ++ "'") ++
  optCond fs.vendor (fun v => al ++ ".vendor = '" ++ escape_sql_string v ++ "'") ++
  optCond fs.device_category (fun v => al ++ ".device_category = '" ++ escape_sql_string v ++ "'") ++
  optCond fs.device_type_family (fun v => al ++ ".device_type_family = '" ++ escape_sql_string v ++ "'") ++
  optCond fs.device_subcategory (fun v => al ++ ".device_subcategory = '" ++ escape_sql_string v ++ "'") ++
  optCond fs.model (fun v => al ++ ".model = '" ++ escape_sql_string v ++ "'") ++
  optCond fs.os_name (fun v => al ++ ".os_name = '" ++ escape_sql_string v ++ "'") ++
  optCond fs.mac_oui (fun v => "array_contains(" ++ al ++ ".mac_oui_list, '" ++ escape_sql_string v ++ "')")

/-- `build_where_clause_with_alias` (src/app.py:566-602); the source's default
alias is `d`. (`alias` is a Lean keyword, hence the parameter name `al`.) -/
def build_where_clause_with_alias (fs : FilterSelection) (al : String) : String :=
  joinConds (whereConditionsAlias fs al)

/-! ### Specification-side view of the predicate builder

The spec describes the predicate as: one conjunct per set field, produced in a
fixed field order, each an equality (membership for `mac_oui`) on a column
reference optionally qualified by an alias prefix. The following definitions
follow those words; the claims compare them against the two source
translations. -/

/-- The twelve filter fields. -/
inductive FilterField where
  | region | vertical | organization | industry | account_status
  | vendor | device_category | device_type_family | device_subcategory
  | model | os_name | mac_oui
deriving DecidableEq, Repr

/-- The fixed field order of the predicate builder. -/
def fieldOrder : List FilterField :=
  [.region, .vertical, .organization, .industry, .account_status, .vendor,
   .device_category, .device_type_family, .device_subcategory, .model, .os_name, .mac_oui]

/-- The value a `FilterSelection` assigns to a field. -/
def fieldValue (fs : FilterSelection) : FilterField → Option String
  | .region => fs.region
  | .vertical => fs.vertical
  | .organization => fs.organization
  | .industry => fs.industry
  | .account_status => fs.account_status
  | .vendor => fs.vendor
  | .device_category => fs.device_category
  | .device_type_family => fs.device_type_family
  | .device_subcategory => fs.device_subcategory
  | .model => fs.model
  | .os_name => fs.os_name
  | .mac_oui => fs.mac_oui

/-- The fact-table column a scalar field compares against (`mac_oui` instead
tests membership in the `mac_oui_list` array column). -/
def colName : FilterField → String
  | .region => "region"
  | .vertical => "vertical"
  | .organization => "organization"
  | .industry => "industry"
  | .account_status => "account_status"
  | .vendor => "vendor"
  | .device_category => "device_category"
  | .device_type_family => "device_type_family"
  | .device_subcategory => "device_subcategory"
  | .model => "model"
  | .os_name => "os_name"
  | .mac_oui => "mac_oui_list"

/-- The set fields of a selection, with their values, in the fixed order. -/
def setFields (fs : FilterSelection) : List (FilterField × String) :=
  fieldOrder.filterMap (fun f => (fieldValue fs f).map (fun v => (f, v)))

/-- The conjunct the spec prescribes for one set field: an equality
`column = '<escaped value>'` for a scalar field, the array-membership test for
`mac_oui`, with every column reference qualified by `p` (the table alias and a
dot, or the empty qualifier). -/
def specConjunct (p : String) : FilterField × String → String
  | (FilterField.mac_oui, v) =>
      "array_contains(" ++ (p ++ ("mac_oui_list, '" ++ (escape_sql_string v ++ "')")))
  | (f, v) => p ++ (colName f ++ (" = '" ++ (escape_sql_string v ++ "'")))

/-- The whole predicate the spec prescribes: AND-join of the per-field
conjuncts in the fixed order, `1=1` when no field is set. -/
def specClause (p : String) (fs : FilterSelection) : String :=
  joinConds ((setFields fs).map (specConjunct p))

/-- All twelve fields unset. -/
def allUnset (fs : FilterSelection) : Prop := fs = emptyFilters

/-- Spec-side escaping relation: every single-quote character of the input is
doubled in the output, every other character passes through unchanged, in
order. `escape_sql_string` is proved to realise exactly this relation. -/
inductive EscapedSpec : List Char → List Char → Prop where
  | nil : EscapedSpec [] []
  | quote {s t : List Char} :
      EscapedSpec s t → EscapedSpec ('\'' :: s) ('\'' :: '\'' :: t)
  | other {c : Char} {s t : List Char} :
      c ≠ '\'' → EscapedSpec s t → EscapedSpec (c :: s) (c :: t)

/-! ### Query Executor (src/app.py:88-111)

`execute_sql_query` runs a query with `max_retries = 1`: a `for attempt in
range(max_retries + 1)` loop that returns the fetched rows on success, and on
failure clears the cached connection (`get_connection.clear()`) and retries if
`attempt < max_retries`, else re-raises. The store is modelled as an oracle
giving the outcome of each attempt; the loop is modelled with the remaining
iteration count as fuel. -/

def max_retries : Nat := 1

deriving instance DecidableEq for Except

/-- Outcome of one `execute_sql_query` call: the returned/raised result
(`none` would mean the `for` loop fell through, which cannot happen), the
number of execution attempts made, and the number of connection resets. -/
structure ExecOut where
  result : Option (Except QueryError (List Row))
  attempts : Nat
  resets : Nat
deriving DecidableEq, Repr

/-- The retry loop of `execute_sql_query`, by remaining iterations. -/
def execLoop (store : Nat → Except QueryError (List Row)) : Nat → Nat → ExecOut
  | _, 0 => ⟨none, 0, 0⟩
  | attempt, fuel + 1 =>
    match store attempt with
    | .ok rows => ⟨some (.ok rows), 1, 0⟩
    | .error e =>
      if attempt < max_retries then
        let rest := execLoop store (attempt + 1) fuel
        ⟨rest.result, rest.attempts + 1, rest.resets + 1⟩
      else
        ⟨some (.error e), 1, 0⟩

/-- `execute_sql_query` (src/app.py:88-111). -/
def execute_sql_query (store : Nat → Except QueryError (List Row)) : ExecOut :=
  execLoop store 0 (max_retries + 1)

/-! ### Query texts

The SQL texts built by the fetchers, with the WHERE clause interpolated as in
the Python f-strings. The fetchers pass them to an abstract executor
`ex : String → Except QueryError (List Row)`. -/

def query_top_devices (where_clause : String) : String := s!"
SELECT
    vendor,
    device_type_family,
    model,
    COUNT(*) as count
FROM `s3-write-bucket`.sales_dashboard.displayable_devices
WHERE {where_clause}
GROUP BY vendor, device_type_family, model
ORDER BY count DESC
LIMIT 5000
"

def query_subcategory (where_clause : String) : String := s!"
SELECT
    device_subcategory,
    COUNT(*) as count
FROM `s3-write-bucket`.sales_dashboard.displayable_devices
WHERE {where_clause}
    AND device_subcategory IS NOT NULL
GROUP BY device_subcategory
ORDER BY count DESC
"

def query_category (where_clause : String) : String := s!"
SELECT
    device_category,
    COUNT(*) as count
FROM `s3-write-bucket`.sales_dashboard.displayable_devices
WHERE {where_clause}
    AND device_category IS NOT NULL
GROUP BY device_category
ORDER BY count DESC
"

def query_os (where_clause : String) : String := s!"
SELECT
    os_name,
    COUNT(*) as count
FROM `s3-write-bucket`.sales_dashboard.displayable_devices
WHERE {where_clause}
    AND os_name IS NOT NULL
GROUP BY os_name
ORDER BY count DESC
"

def query_vendor (where_clause : String) : String := s!"
SELECT
    vendor,
    COUNT(*) as count
FROM `s3-write-bucket`.sales_dashboard.displayable_devices
WHERE {where_clause}
    AND vendor IS NOT NULL
GROUP BY vendor
ORDER BY count DESC
LIMIT 20
"

def query_total (where_clause : String) : String := s!"
SELECT COUNT(*) as total_count
FROM `s3-write-bucket`.sales_dashboard.displayable_devices
WHERE {where_clause}
"

def query_sources (where_clause : String) : String := s!"
SELECT
    source,
    COUNT(*) as device_count
FROM (
    SELECT DISTINCT organization, uid, exploded_source as source
    FROM `s3-write-bucket`.sales_dashboard.displayable_devices
    LATERAL VIEW explode(all_seen_sources) AS exploded_source
    WHERE {where_clause}
)
GROUP BY source
ORDER BY device_count DESC
"

def query_org_dist (where_clause : String) : String := s!"
SELECT
    organization,
    COUNT(*) as count
FROM `s3-write-bucket`.sales_dashboard.displayable_devices
WHERE {where_clause}
    AND organization IS NOT NULL
GROUP BY organization
ORDER BY count DESC
"

def query_risk_dist (where_clause : String) : String := s!"
SELECT
    risk_score,
    COUNT(*) as count
FROM `s3-write-bucket`.sales_dashboard.displayable_devices
WHERE {where_clause}
    AND risk_score IS NOT NULL
GROUP BY risk_score
ORDER BY count DESC
"

def query_risk_level (where_clause level : String) : String := s!"
SELECT
    vendor,
    device_type_family,
    model,
    COUNT(*) as count
FROM `s3-write-bucket`.sales_dashboard.displayable_devices
WHERE {where_clause}
    AND risk_score = '{level}'
    AND vendor IS NOT NULL
    AND device_type_family IS NOT NULL
    AND model IS NOT NULL
GROUP BY vendor, device_type_family, model
ORDER BY count DESC
LIMIT 100
"

def query_vuln (where_clause : String) : String := s!"
SELECT
    effective_relevance,
    v.name as advisory_name,
    v.source_name,
    COUNT(*) as count
FROM `s3-write-bucket`.sales_dashboard.displayable_devices_vulnerabilities
LATERAL VIEW EXPLODE(vulnerabilities_list) exploded AS v
WHERE {where_clause}
GROUP BY effective_relevance, v.name, v.source_name
ORDER BY effective_relevance, count DESC
"

/-! ### Aggregate Fetchers (src/app.py:168-526)

Each fetcher wraps its body in try/except: the body issues its queries in
source order through the executor oracle and shapes the rows; any raised
`QueryError` is caught, an error notice is shown (`st.error`, modelled as the
returned Boolean), and a fallback bundle of `pd.DataFrame()` tables and zero
counts is returned. -/

/-- The integer value of a cell (`COUNT(*)` columns). -/
def cellInt : Cell → Int
  | .int n => n
  | _ => 0

/-- `get_global_stats`'s result bundle (the dict of src/app.py:313-322). -/
structure GlobalStats where
  top_devices : Table
  subcategory : Table
  category : Table
  os_dist : Table
  vendor_dist : Table
  total_devices : Cell
  source_coverage : Table
  org_dist : Table
deriving DecidableEq, Repr

/-- The fallback bundle of `get_global_stats` (src/app.py:326-335): every
table is `pd.DataFrame()` and the total is 0. -/
def globalFallback : GlobalStats :=
  ⟨emptyDF, emptyDF, emptyDF, emptyDF, emptyDF, Cell.int 0, emptyDF, emptyDF⟩

/-- The try-block of `get_global_stats` (src/app.py:184-322): eight queries
executed in source order, shaped into the result dict. -/
def get_global_stats_body (ex : String → Except QueryError (List Row))
    (fs : FilterSelection) : Except QueryError GlobalStats := do
  let where_clause := build_where_clause fs
  let results_top ← ex (query_top_devices where_clause)
  let results_sub ← ex (query_subcategory where_clause)
  let results_cat ← ex (query_category where_clause)
  let results_os ← ex (query_os where_clause)
  let results_vendor ← ex (query_vendor where_clause)
  let results_total ← ex (query_total where_clause)
  let results_sources ← ex (query_sources where_clause)
  let results_org_dist ← ex (query_org_dist where_clause)
  return {
    top_devices := ⟨["vendor", "device_type_family", "model", "count"], results_top⟩
    subcategory := ⟨["device_subcategory", "count"], results_sub⟩
    category := ⟨["device_category", "count"], results_cat⟩
    os_dist := ⟨["os_name", "count"], results_os⟩
    vendor_dist := ⟨["vendor", "count"], results_vendor⟩
    total_devices := match results_total with
      | [] => Cell.int 0
      | r :: _ => r.getD 0 Cell.null
    source_coverage := ⟨["source", "device_count"], results_sources⟩
    org_dist := ⟨["organization", "count"], results_org_dist⟩ }

/-- `get_global_stats` (src/app.py:168-335), minus the `st.cache_data`
decorator (modelled separately by `cachedCall`). The Boolean records whether
the `st.error` notice was shown. -/
def get_global_stats (ex : String → Except QueryError (List Row))
    (fs : FilterSelection) : GlobalStats × Bool :=
  match get_global_stats_body ex fs with
  | .ok stats => (stats, false)
  | .error _ => (globalFallback, true)

/-- `get_risk_stats`'s result bundle (the dict of src/app.py:438-443). -/
structure RiskStats where
  risk_dist : Table
  risk_critical : Table
  risk_high : Table
  risk_medium : Table
deriving DecidableEq, Repr

/-- The fallback bundle of `get_risk_stats` (src/app.py:447-452). -/
def riskFallback : RiskStats := ⟨emptyDF, emptyDF, emptyDF, emptyDF⟩

/-- The try-block of `get_risk_stats` (src/app.py:353-443): four queries in
source order. -/
def get_risk_stats_body (ex : String → Except QueryError (List Row))
    (fs : FilterSelection) : Except QueryError RiskStats := do
  let where_clause := build_where_clause fs
  let results_risk ← ex (query_risk_dist where_clause)
  let results_critical ← ex (query_risk_level where_clause "Critical")
  let results_high ← ex (query_risk_level where_clause "High")
  let results_medium ← ex (query_risk_level where_clause "Medium")
  return {
    risk_dist := ⟨["risk_score", "count"], results_risk⟩
    risk_critical := ⟨["vendor", "device_type_family", "model", "count"], results_critical⟩
    risk_high := ⟨["vendor", "device_type_family", "model", "count"], results_high⟩
    risk_medium := ⟨["vendor", "device_type_family", "model", "count"], results_medium⟩ }

/-- `get_risk_stats` (src/app.py:337-452), minus the cache decorator. -/
def get_risk_stats (ex : String → Except QueryError (List Row))
    (fs : FilterSelection) : RiskStats × Bool :=
  match get_risk_stats_body ex fs with
  | .ok stats => (stats, false)
  | .error _ => (riskFallback, true)

/-- `effective_relevance` cell of a fetched vulnerability row (column 0). -/
def relCell (r : Row) : Cell := r.getD 0 Cell.null

/-- `count` cell of a fetched vulnerability row (column 3), as an integer. -/
def countOf (r : Row) : Int := cellInt (r.getD 3 Cell.null)

/-- `df_all['effective_relevance'] == 'Confirmed'` on one row. -/
def isConfirmedRow (r : Row) : Bool := decide (relCell r = Cell.str "Confirmed")

/-- `df_all['effective_relevance'] == 'Potentially Relevant'` on one row. -/
def isPotentialRow (r : Row) : Bool := decide (relCell r = Cell.str "Potentially Relevant")

/-- Column selection `[['advisory_name', 'source_name', 'count']]` on one row. -/
def projVuln (r : Row) : Row := [r.getD 1 Cell.null, r.getD 2 Cell.null, r.getD 3 Cell.null]

/-- `df['count'].sum()`. -/
def sumCounts (rows : List Row) : Int := (rows.map countOf).sum

/-- `get_vulnerability_stats`'s result bundle (the dict of src/app.py:512-517). -/
structure VulnStats where
  vuln_confirmed : Table
  vuln_potential : Table
  vuln_confirmed_total : Int
  vuln_potential_total : Int
deriving DecidableEq, Repr

/-- The fallback bundle of `get_vulnerability_stats` (src/app.py:521-526). -/
def vulnFallback : VulnStats := ⟨emptyDF, emptyDF, 0, 0⟩

/-- Outcome of one `get_vulnerability_stats` call: the bundle, whether the
`st.error` notice was shown, and the list of queries issued to the store. -/
structure VulnFetch where
  stats : VulnStats
  error_shown : Bool
  queries : List String
deriving DecidableEq, Repr

/-- `get_vulnerability_stats` (src/app.py:454-526), minus the cache
decorator: one single query, then the Confirmed / Potentially Relevant split,
totals and top-100 truncation are computed locally in pandas. -/
def get_vulnerability_stats (ex : String → Except QueryError (List Row))
    (fs : FilterSelection) : VulnFetch :=
  let where_clause := build_where_clause fs
  let q := query_vuln where_clause
  match ex q with
  | .error _ => ⟨vulnFallback, true, [q]⟩
  | .ok results =>
    let df_all : Table :=
      ⟨["effective_relevance", "advisory_name", "source_name", "count"], results⟩
    let df_confirmed_all := df_all.rows.filter isConfirmedRow
    let df_potential_all := df_all.rows.filter isPotentialRow
    let total_confirmed : Int := if df_confirmed_all.isEmpty then 0 else sumCounts df_confirmed_all
    let total_potential : Int := if df_potential_all.isEmpty then 0 else sumCounts df_potential_all
    let df_confirmed : Table :=
      ⟨["advisory_name", "source_name", "count"], (df_confirmed_all.map projVuln).take 100⟩
    let df_potential : Table :=
      ⟨["advisory_name", "source_name", "count"], (df_potential_all.map projVuln).take 100⟩
    ⟨⟨df_confirmed, df_potential, total_confirmed, total_potential⟩, false, [q]⟩

/-! ### Result Cache -/

/-- Outcome of one call through the memoizing cache: the value handed back,
the cache afterwards, and whether the underlying fetcher body ran. -/
structure CacheCall (κ α : Type) where
  value : α
  cache : List (κ × α)
  ran : Bool

/-- Lookup by structural key equality. -/
def lookupCache {κ α : Type} [DecidableEq κ] : List (κ × α) → κ → Option α
  | [], _ => none
  | (k, v) :: rest, key => if key = k then some v else lookupCache rest key

/-- Modelled from the spec: the `@st.cache_data` decorator on the three stat
fetchers (Result Cache, spec section 4.4) is Streamlit library code, not part
of src/. Per the spec it memoizes the fetcher's return value keyed by exact
structural equality of the argument tuple, computing on a miss and returning
the stored value on a hit without running the fetcher body. -/
def cachedCall {κ α : Type} [DecidableEq κ] (f : κ → α) (cache : List (κ × α)) (k : κ) :
    CacheCall κ α :=
  match lookupCache cache k with
  | some v => ⟨v, cache, false⟩
  | none => let v := f k; ⟨v, (k, v) :: cache, true⟩

/-- Every entry of the cache is a value the fetcher computes for its key. -/
def cacheConsistent {κ α : Type} [DecidableEq κ] (f : κ → α) (cache : List (κ × α)) : Prop :=
  ∀ p ∈ cache, p.2 = f p.1

/-- The memoization contract for one fetcher `f` and a structurally equal key
pair: from any consistent cache, the first call returns `f fs` (the
unmemoized result), and a second call with the equal key returns the same
value without running the fetcher body. -/
def MemoizedOk {α : Type} (f : FilterSelection → α) (fs fs' : FilterSelection) : Prop :=
  ∀ cache : List (FilterSelection × α), cacheConsistent f cache →
    (cachedCall f cache fs).value = f fs ∧
    (cachedCall f (cachedCall f cache fs).cache fs').value = (cachedCall f cache fs).value ∧
    (cachedCall f (cachedCall f cache fs).cache fs').ran = false

/-! ### View-State Sequencer (src/app.py:769-940, 1358-1379)

One Streamlit script run is one `renderStep`. Session state holds
`initial_load_done` (src/app.py:791-792) and `vuln_needs_refresh`
(src/app.py:793-794, initially True). The run computes `should_query =
submitted or (not initial_load_done and all_filters_all)` (src/app.py:813);
if set, it fetches Global then Risk (src/app.py:874-907), marks the initial
load done (src/app.py:870-871) and re-arms `vuln_needs_refresh`
(src/app.py:910). Whether the Vulnerabilities tab body runs this turn (it is
skipped when `st.stop()` fires or the tab subtree is not rendered) is an
input; when it runs with the flag armed, the Vulnerability bundle is fetched
and the flag cleared (src/app.py:1362-1379). -/

/-- The per-session mutable state the sequencer reads and writes. -/
structure SessionState where
  initial_load_done : Bool
  vuln_needs_refresh : Bool
deriving DecidableEq, Repr

/-- Session-start defaults (src/app.py:791-794). -/
def initialSession : SessionState := ⟨false, true⟩

/-- The observable fetch calls a script run makes, in order. -/
inductive FetchEvent where
  | fetchGlobal
  | fetchRisk
  | fetchVuln
deriving DecidableEq, Repr

/-- The inputs of one script run. -/
structure RenderInput where
  submitted : Bool
  all_filters_all : Bool
  vuln_tab_rendered : Bool
deriving DecidableEq, Repr

/-- `should_query` (src/app.py:813). -/
def should_query (s : SessionState) (inp : RenderInput) : Bool :=
  inp.submitted || (!s.initial_load_done && inp.all_filters_all)

/-- One script run: the eager Global/Risk fetch block, then the lazy
Vulnerability block of the Vulnerabilities tab. -/
def renderStep (s : SessionState) (inp : RenderInput) : SessionState × List FetchEvent :=
  let sq := should_query s inp
  let s1 : SessionState := if sq then ⟨true, true⟩ else s
  let evs : List FetchEvent := if sq then [.fetchGlobal, .fetchRisk] else []
  if inp.vuln_tab_rendered && s1.vuln_needs_refresh then
    (⟨s1.initial_load_done, false⟩, evs ++ [.fetchVuln])
  else
    (s1, evs)

/-- A whole session: script runs in sequence, events concatenated. -/
def runSession : SessionState → List RenderInput → SessionState × List FetchEvent
  | s, [] => (s, [])
  | s, inp :: rest =>
    let step := renderStep s inp
    let next := runSession step.1 rest
    (next.1, step.2 ++ next.2)

/-- Occurrences of one fetch event in a run's event list. -/
def countE : List FetchEvent → FetchEvent → Nat
  | [], _ => 0
  | x :: xs, e => (if x = e then 1 else 0) + countE xs e

/-! ### Concrete inputs for witnesses and counterexamples -/

/-- A store oracle that fails every query (connection lost). -/
def failEx : String → Except QueryError (List Row) :=
  fun _ => .error ⟨"connection closed"⟩

/-- A store oracle that answers every query with no rows. -/
def okEmptyEx : String → Except QueryError (List Row) :=
  fun _ => .ok []

/-- An attempt-level store that fails once, then succeeds. -/
def transientStore : Nat → Except QueryError (List Row) :=
  fun n => if n = 0 then .error ⟨"transient"⟩ else .ok [[Cell.int 1]]

/-- A small vulnerability result set: one Confirmed and one Potentially
Relevant advisory row. -/
def sampleVulnRows : List Row :=
  [[Cell.str "Confirmed", Cell.str "CVE-2024-0001", Cell.str "nvd", Cell.int 3],
   [Cell.str "Potentially Relevant", Cell.str "CVE-2024-0002", Cell.str "osv", Cell.int 4]]

/-- A vulnerability result set whose single row carries a relevance value
outside the two buckets. -/
def strayVulnRows : List Row :=
  [[Cell.str "Unknown", Cell.str "CVE-2024-0003", Cell.str "nvd", Cell.int 5]]

/-! ### Bridging lemmas: source predicate builders vs spec formulation -/

theorem optCond_eq_toList (o : Option String) (g : String → String) :
    optCond o g = o.toList.map g := by
  cases o <;> rfl

theorem filterMap_cons_toList {α β : Type} (g : α → Option β) (a : α) (l : List α) :
    List.filterMap g (a :: l) = (g a).toList ++ List.filterMap g l := by
  cases h : g a <;> simp [List.filterMap_cons, h]

theorem option_map_toList {α β : Type} (o : Option α) (g : α → β) :
    (Option.map g o).toList = o.toList.map g := by
  cases o <;> rfl

/-- `setFields` mapped through the conjunct maker splits into twelve
independent per-field chunks. -/
theorem setFields_map (p : String) (fs : FilterSelection) :
    (setFields fs).map (specConjunct p) =
      optCond fs.region (fun v => specConjunct p (.region, v)) ++
      optCond fs.vertical (fun v => specConjunct p (.vertical, v)) ++
      optCond fs.organization (fun v => specConjunct p (.organization, v)) ++
      optCond fs.industry (fun v => specConjunct p (.industry, v)) ++
      optCond fs.account_status (fun v => specConjunct p (.account_status, v)) ++
      optCond fs.vendor (fun v => specConjunct p (.vendor, v)) ++
      optCond fs.device_category (fun v => specConjunct p (.device_category, v)) ++
      optCond fs.device_type_family (fun v => specConjunct p (.device_type_family, v)) ++
      optCond fs.device_subcategory (fun v => specConjunct p (.device_subcategory, v)) ++
      optCond fs.model (fun v => specConjunct p (.model, v)) ++
      optCond fs.os_name (fun v => specConjunct p (.os_name, v)) ++
      optCond fs.mac_oui (fun v => specConjunct p (.mac_oui, v)) := by
  simp only [setFields, fieldOrder, filterMap_cons_toList, List.filterMap_nil,
    List.append_nil, List.map_append, option_map_toList, List.map_map,
    optCond_eq_toList, fieldValue, Function.comp_def, List.append_assoc]

theorem string_empty_append (s : String) : "" ++ s = s := by
  simp

/-- A scalar conjunct literal split into qualifier, column and comparator. -/
theorem scalar_fun_eq (p col lit : String) (hl : lit = p ++ (col ++ " = '")) :
    (fun v => lit ++ escape_sql_string v ++ "'") =
      (fun v => p ++ (col ++ (" = '" ++ (escape_sql_string v ++ "'")))) := by
  subst hl
  funext v
  simp [String.append_assoc]

/-- The membership conjunct literal split into qualifier and column. -/
theorem mac_fun_eq (p lit : String) (hl : lit = "array_contains(" ++ (p ++ "mac_oui_list, '")) :
    (fun v => lit ++ escape_sql_string v ++ "')") =
      (fun v => "array_contains(" ++ (p ++ ("mac_oui_list, '" ++ (escape_sql_string v ++ "')")))) := by
  subst hl
  funext v
  simp [String.append_assoc]

theorem alias_split (al x y : String) (h : x = "." ++ y) : al ++ x = (al ++ ".") ++ y := by
  rw [h, ← String.append_assoc]

theorem mac_alias_lit (al : String) :
    "array_contains(" ++ al ++ ".mac_oui_list, '" =
      "array_contains(" ++ ((al ++ ".") ++ "mac_oui_list, '") := by
  rw [show (".mac_oui_list, '" : String) = "." ++ "mac_oui_list, '" from by decide]
  simp [String.append_assoc]

theorem whereConditions_eq_spec (fs : FilterSelection) :
    whereConditions fs = (setFields fs).map (specConjunct "") := by
  rw [setFields_map, whereConditions]
  rw [scalar_fun_eq "" "region" _ (by decide),
      scalar_fun_eq "" "vertical" _ (by decide),
      scalar_fun_eq "" "organization" _ (by decide),
      scalar_fun_eq "" "industry" _ (by decide),
      scalar_fun_eq "" "account_status" _ (by decide),
      scalar_fun_eq "" "vendor" _ (by decide),
      scalar_fun_eq "" "device_category" _ (by decide),
      scalar_fun_eq "" "device_type_family" _ (by decide),
      scalar_fun_eq "" "device_subcategory" _ (by decide),
      scalar_fun_eq "" "model" _ (by decide),
      scalar_fun_eq "" "os_name" _ (by decide),
      mac_fun_eq "" _ (by decide)]
  rfl

theorem whereConditionsAlias_eq_spec (fs : FilterSelection) (al : String) :
    whereConditionsAlias fs al = (setFields fs).map (specConjunct (al ++ ".")) := by
  rw [setFields_map, whereConditionsAlias]
  rw [scalar_fun_eq (al ++ ".") "region" _ (alias_split al _ _ (by decide)),
      scalar_fun_eq (al ++ ".") "vertical" _ (alias_split al _ _ (by decide)),
      scalar_fun_eq (al ++ ".") "organization" _ (alias_split al _ _ (by decide)),
      scalar_fun_eq (al ++ ".") "industry" _ (alias_split al _ _ (by decide)),
      scalar_fun_eq (al ++ ".") "account_status" _ (alias_split al _ _ (by decide)),
      scalar_fun_eq (al ++ ".") "vendor" _ (alias_split al _ _ (by decide)),
      scalar_fun_eq (al ++ ".") "device_category" _ (alias_split al _ _ (by decide)),
      scalar_fun_eq (al ++ ".") "device_type_family" _ (alias_split al _ _ (by decide)),
      scalar_fun_eq (al ++ ".") "device_subcategory" _ (alias_split al _ _ (by decide)),
      scalar_fun_eq (al ++ ".") "model" _ (alias_split al _ _ (by decide)),
      scalar_fun_eq (al ++ ".") "os_name" _ (alias_split al _ _ (by decide)),
      mac_fun_eq (al ++ ".") _ (mac_alias_lit al)]
  rfl

theorem build_where_clause_eq_spec (fs : FilterSelection) :
    build_where_clause fs = specClause "" fs := by
  rw [build_where_clause, specClause, whereConditions_eq_spec]

theorem build_where_clause_with_alias_eq_spec (fs : FilterSelection) (al : String) :
    build_where_clause_with_alias fs al = specClause (al ++ ".") fs := by
  rw [build_where_clause_with_alias, specClause, whereConditionsAlias_eq_spec]

theorem build_where_clause_emptyFilters : build_where_clause emptyFilters = "1=1" := by
  rfl

theorem build_where_clause_with_alias_emptyFilters (al : String) :
    build_where_clause_with_alias emptyFilters al = "1=1" := by
  rfl

theorem intercalate_singleton (x : String) : String.intercalate " AND " [x] = x := by
  simp [String.intercalate, String.intercalate.go]

theorem joinConds_singleton (x : String) : joinConds [x] = x := by
  simp [joinConds, intercalate_singleton]

theorem build_where_clause_only_region (v : String) :
    build_where_clause ⟨some v, none, none, none, none, none, none, none, none, none, none, none⟩ =
      "region = '" ++ escape_sql_string v ++ "'" := by
  show joinConds ["region = '" ++ escape_sql_string v ++ "'"] = _
  exact joinConds_singleton _

theorem build_where_clause_only_mac (v : String) :
    build_where_clause ⟨none, none, none, none, none, none, none, none, none, none, none, some v⟩ =
      "array_contains(mac_oui_list, '" ++ escape_sql_string v ++ "')" := by
  show joinConds ["array_contains(mac_oui_list, '" ++ escape_sql_string v ++ "')"] = _
  exact joinConds_singleton _

/-! ### Escaping lemmas -/

theorem escapeChars_escaped : ∀ l : List Char, EscapedSpec l (escapeChars l) := by
  intro l
  induction l with
  | nil => exact .nil
  | cons c cs ih =>
    by_cases h : c = '\''
    · subst h
      simpa [escapeChars] using EscapedSpec.quote ih
    · simpa [escapeChars, h] using EscapedSpec.other h ih

/-! ### Query Executor lemmas -/

theorem exec_first_ok (store : Nat → Except QueryError (List Row)) (rows : List Row)
    (h : store 0 = .ok rows) :
    execute_sql_query store = ⟨some (.ok rows), 1, 0⟩ := by
  simp [execute_sql_query, execLoop, max_retries, h]

theorem exec_retry_ok (store : Nat → Except QueryError (List Row)) (e : QueryError)
    (rows : List Row) (h0 : store 0 = .error e) (h1 : store 1 = .ok rows) :
    execute_sql_query store = ⟨some (.ok rows), 2, 1⟩ := by
  simp [execute_sql_query, execLoop, max_retries, h0, h1]

theorem exec_both_fail (store : Nat → Except QueryError (List Row)) (e0 e1 : QueryError)
    (h0 : store 0 = .error e0) (h1 : store 1 = .error e1) :
    execute_sql_query store = ⟨some (.error e1), 2, 1⟩ := by
  simp [execute_sql_query, execLoop, max_retries, h0, h1]

/-! ### Fetcher fallback lemmas -/

theorem get_global_stats_error (ex : String → Except QueryError (List Row))
    (fs : FilterSelection) (e : QueryError) (h : get_global_stats_body ex fs = .error e) :
    get_global_stats ex fs = (globalFallback, true) := by
  simp [get_global_stats, h]

theorem get_risk_stats_error (ex : String → Except QueryError (List Row))
    (fs : FilterSelection) (e : QueryError) (h : get_risk_stats_body ex fs = .error e) :
    get_risk_stats ex fs = (riskFallback, true) := by
  simp [get_risk_stats, h]

theorem get_vulnerability_stats_error (ex : String → Except QueryError (List Row))
    (fs : FilterSelection) (e : QueryError)
    (h : ex (query_vuln (build_where_clause fs)) = .error e) :
    get_vulnerability_stats ex fs =
      ⟨vulnFallback, true, [query_vuln (build_where_clause fs)]⟩ := by
  simp [get_vulnerability_stats, h]

theorem get_global_stats_body_allfail (ex : String → Except QueryError (List Row))
    (fs : FilterSelection) (e : QueryError) (h : ∀ q, ex q = .error e) :
    get_global_stats_body ex fs = .error e := by
  simp only [get_global_stats_body, h]
  rfl

theorem get_risk_stats_body_allfail (ex : String → Except QueryError (List Row))
    (fs : FilterSelection) (e : QueryError) (h : ∀ q, ex q = .error e) :
    get_risk_stats_body ex fs = .error e := by
  simp only [get_risk_stats_body, h]
  rfl

/-! ### Vulnerability split lemmas -/

theorem get_vulnerability_stats_ok (ex : String → Except QueryError (List Row))
    (fs : FilterSelection) (rows : List Row)
    (h : ex (query_vuln (build_where_clause fs)) = .ok rows) :
    get_vulnerability_stats ex fs =
      ⟨⟨⟨["advisory_name", "source_name", "count"],
          ((rows.filter isConfirmedRow).map projVuln).take 100⟩,
        ⟨["advisory_name", "source_name", "count"],
          ((rows.filter isPotentialRow).map projVuln).take 100⟩,
        (if (rows.filter isConfirmedRow).isEmpty then 0
         else sumCounts (rows.filter isConfirmedRow)),
        (if (rows.filter isPotentialRow).isEmpty then 0
         else sumCounts (rows.filter isPotentialRow))⟩,
       false, [query_vuln (build_where_clause fs)]⟩ := by
  simp [get_vulnerability_stats, h]

theorem total_if_eq_sum (l : List Row) :
    (if l.isEmpty then 0 else sumCounts l) = sumCounts l := by
  cases l <;> simp [sumCounts]

theorem confirmed_not_potential (r : Row) (h : isConfirmedRow r = true) :
    isPotentialRow r = false := by
  have hc : relCell r = Cell.str "Confirmed" := of_decide_eq_true h
  simp [isPotentialRow, hc]

theorem potential_not_confirmed (r : Row) (h : isPotentialRow r = true) :
    isConfirmedRow r = false := by
  have hc : relCell r = Cell.str "Potentially Relevant" := of_decide_eq_true h
  simp [isConfirmedRow, hc]

theorem bucket_dichotomy (r : Row)
    (h : relCell r = Cell.str "Confirmed" ∨ relCell r = Cell.str "Potentially Relevant") :
    isConfirmedRow r = true ↔ isPotentialRow r = false := by
  cases h with
  | inl hc => simp [isConfirmedRow, isPotentialRow, hc]
  | inr hp => simp [isConfirmedRow, isPotentialRow, hp]

theorem sumCounts_cons (r : Row) (l : List Row) :
    sumCounts (r :: l) = countOf r + sumCounts l := by
  simp [sumCounts]

theorem sumCounts_filter_partition :
    ∀ rows : List Row,
      (∀ r ∈ rows, isConfirmedRow r = true ∨ isPotentialRow r = true) →
      sumCounts (rows.filter isConfirmedRow) + sumCounts (rows.filter isPotentialRow) =
        sumCounts rows := by
  intro rows
  induction rows with
  | nil => intro _; simp [sumCounts]
  | cons r rest ih =>
    intro h
    have hrest := ih (fun x hx => h x (List.mem_cons_of_mem r hx))
    have hr := h r (List.mem_cons_self r rest)
    cases hc : isConfirmedRow r with
    | true =>
      have hp := confirmed_not_potential r hc
      simp only [List.filter_cons, hc, hp, if_true, if_false, sumCounts_cons,
        Bool.false_eq_true, ite_false, ite_true]
      omega
    | false =>
      have hp : isPotentialRow r = true := by
        cases hr with
        | inl hx => rw [hx] at hc; cases hc
        | inr hx => exact hx
      simp only [List.filter_cons, hc, hp, sumCounts_cons, Bool.false_eq_true,
        ite_false, ite_true]
      omega

theorem pairwise_take_drop {α : Type} {R : α → α → Prop} {l : List α} (h : l.Pairwise R)
    (n : Nat) : ∀ a ∈ l.take n, ∀ b ∈ l.drop n, R a b := by
  have h2 := h
  rw [← List.take_append_drop n l] at h2
  exact (List.pairwise_append.mp h2).2.2

/-! ### Result Cache lemmas -/

theorem lookupCache_some {κ α : Type} [DecidableEq κ] :
    ∀ (cache : List (κ × α)) (k : κ) (v : α),
      lookupCache cache k = some v → ∃ p ∈ cache, p.1 = k ∧ p.2 = v := by
  intro cache
  induction cache with
  | nil => intro k v h; cases h
  | cons p rest ih =>
    intro k v h
    obtain ⟨k1, v1⟩ := p
    by_cases hk : k = k1
    · simp only [lookupCache, if_pos hk] at h
      injection h with h2
      exact ⟨(k1, v1), List.mem_cons_self _ _, hk.symm, h2⟩
    · simp only [lookupCache, if_neg hk] at h
      obtain ⟨q, hq, hq1, hq2⟩ := ih k v h
      exact ⟨q, List.mem_cons_of_mem _ hq, hq1, hq2⟩

theorem cachedCall_hit {κ α : Type} [DecidableEq κ] (f : κ → α) (cache : List (κ × α))
    (k : κ) (v : α) (h : lookupCache cache k = some v) :
    cachedCall f cache k = ⟨v, cache, false⟩ := by
  simp [cachedCall, h]

theorem cachedCall_consistent {κ α : Type} [DecidableEq κ] (f : κ → α)
    (cache : List (κ × α)) (hc : cacheConsistent f cache) (k : κ) :
    (cachedCall f cache k).value = f k ∧
    cacheConsistent f (cachedCall f cache k).cache ∧
    lookupCache (cachedCall f cache k).cache k = some (f k) := by
  cases hl : lookupCache cache k with
  | some v =>
    obtain ⟨p, hp, hp1, hp2⟩ := lookupCache_some cache k v hl
    have hv : v = f k := by rw [← hp2, hc p hp, hp1]
    refine ⟨?_, ?_, ?_⟩ <;> simp [cachedCall, hl, hv, hc]
  | none =>
    refine ⟨?_, ?_, ?_⟩
    · simp [cachedCall, hl]
    · simp only [cachedCall, hl]
      intro p hp
      cases hp with
      | head => rfl
      | tail _ hmem => exact hc p hmem
    · simp [cachedCall, hl, lookupCache]

theorem cachedCall_memo {α : Type} (f : FilterSelection → α) (fs fs' : FilterSelection)
    (h : fs' = fs) : MemoizedOk f fs fs' := by
  subst h
  intro cache hc
  obtain ⟨hv, hcons, hlook⟩ := cachedCall_consistent f cache hc fs'
  refine ⟨hv, ?_, ?_⟩ <;> rw [cachedCall_hit f _ fs' (f fs') hlook]
  exact hv.symm

/-! ### View-State Sequencer lemmas -/

theorem countE_append (a b : List FetchEvent) (e : FetchEvent) :
    countE (a ++ b) e = countE a e + countE b e := by
  induction a with
  | nil => simp [countE]
  | cons x xs ih => simp [countE, ih]; omega

theorem should_query_done (s : SessionState) (inp : RenderInput)
    (hdone : s.initial_load_done = true) (hsub : inp.submitted = false) :
    should_query s inp = false := by
  simp [should_query, hdone, hsub]

theorem renderStep_no_query (s : SessionState) (inp : RenderInput)
    (h : should_query s inp = false) :
    renderStep s inp =
      (if inp.vuln_tab_rendered && s.vuln_needs_refresh then
        (⟨s.initial_load_done, false⟩, [.fetchVuln])
       else (s, [])) := by
  simp [renderStep, h]

theorem renderStep_query (s : SessionState) (inp : RenderInput)
    (h : should_query s inp = true) :
    renderStep s inp =
      (if inp.vuln_tab_rendered then
        (⟨true, false⟩, [.fetchGlobal, .fetchRisk, .fetchVuln])
       else (⟨true, true⟩, [.fetchGlobal, .fetchRisk])) := by
  cases hv : inp.vuln_tab_rendered <;> simp [renderStep, h, hv]

theorem runSession_no_eager (inputs : List RenderInput) :
    ∀ s : SessionState, s.initial_load_done = true →
      (∀ i ∈ inputs, i.submitted = false) →
      (runSession s inputs).1.initial_load_done = true ∧
      countE (runSession s inputs).2 .fetchGlobal = 0 ∧
      countE (runSession s inputs).2 .fetchRisk = 0 := by
  induction inputs with
  | nil => intro s hdone _; exact ⟨hdone, rfl, rfl⟩
  | cons i rest ih =>
    intro s hdone hsub
    have hq := should_query_done s i hdone (hsub i (List.mem_cons_self i rest))
    have hstep := renderStep_no_query s i hq
    have hrest := fun x hx => hsub x (List.mem_cons_of_mem i hx)
    cases hv : i.vuln_tab_rendered && s.vuln_needs_refresh with
    | true =>
      rw [hv, if_pos rfl] at hstep
      obtain ⟨h1, h2, h3⟩ := ih ⟨s.initial_load_done, false⟩ hdone hrest
      simp [runSession, hstep, countE_append, countE, h1, h2, h3]
    | false =>
      rw [hv, if_neg (by simp)] at hstep
      obtain ⟨h1, h2, h3⟩ := ih s hdone hrest
      simp [runSession, hstep, countE_append, countE, h1, h2, h3]

theorem runSession_vuln_flag_false (inputs : List RenderInput) :
    ∀ s : SessionState, s.initial_load_done = true → s.vuln_needs_refresh = false →
      (∀ i ∈ inputs, i.submitted = false) →
      countE (runSession s inputs).2 .fetchVuln = 0 := by
  induction inputs with
  | nil => intro s _ _ _; rfl
  | cons i rest ih =>
    intro s hdone hflag hsub
    have hq := should_query_done s i hdone (hsub i (List.mem_cons_self i rest))
    have hstep := renderStep_no_query s i hq
    rw [hflag, Bool.and_false, if_neg (by simp)] at hstep
    have hrest := fun x hx => hsub x (List.mem_cons_of_mem i hx)
    simp [runSession, hstep, countE_append, countE, ih s hdone hflag hrest]

theorem runSession_vuln_flag_true (inputs : List RenderInput) :
    ∀ s : SessionState, s.initial_load_done = true → s.vuln_needs_refresh = true →
      (∀ i ∈ inputs, i.submitted = false) →
      countE (runSession s inputs).2 .fetchVuln =
        (if inputs.any (fun i => i.vuln_tab_rendered) then 1 else 0) := by
  induction inputs with
  | nil => intro s _ _ _; rfl
  | cons i rest ih =>
    intro s hdone hflag hsub
    have hq := should_query_done s i hdone (hsub i (List.mem_cons_self i rest))
    have hstep := renderStep_no_query s i hq
    have hrest := fun x hx => hsub x (List.mem_cons_of_mem i hx)
    cases hv : i.vuln_tab_rendered with
    | true =>
      rw [hv, hflag, Bool.true_and, if_pos rfl] at hstep
      have h0 := runSession_vuln_flag_false rest ⟨s.initial_load_done, false⟩ hdone rfl hrest
      simp [runSession, hstep, countE_append, countE, h0, List.any_cons, hv]
    | false =>
      rw [hv, Bool.false_and, if_neg (by simp)] at hstep
      simp [runSession, hstep, countE_append, countE, ih s hdone hflag hrest,
        List.any_cons, hv]

/-! ### Claim theorems -/

/-- C1: for every filter field value passed to the predicate builder, every
single-quote character in the value appears doubled in the emitted predicate
(each quote replaced by two), no other character of the value is altered, and
the escaped value is interpolated verbatim into the equality conjunct
`column = '<value>'` and into the `array_contains` membership conjunct. -/
theorem claim_C1_escaping :
    (∀ v : String, EscapedSpec v.data (escape_sql_string v).data) ∧
    (∀ v : String,
      build_where_clause ⟨some v, none, none, none, none, none, none, none, none, none, none, none⟩ =
        "region = '" ++ escape_sql_string v ++ "'") ∧
    (∀ v : String,
      build_where_clause ⟨none, none, none, none, none, none, none, none, none, none, none, some v⟩ =
        "array_contains(mac_oui_list, '" ++ escape_sql_string v ++ "')") :=
  ⟨fun v => escapeChars_escaped v.data, build_where_clause_only_region,
    build_where_clause_only_mac⟩

/-- C4: `build_where_clause` returns exactly the AND-join, in the fixed field
order, of one conjunct per set field — an equality conjunct for each scalar
field and the array-membership conjunct for `mac_oui` (the content of
`specClause ""`) — and returns the literal always-true predicate `1=1` for the
selection with all twelve fields unset. -/
theorem claim_C4_clause_shape :
    (∀ fs : FilterSelection, build_where_clause fs = specClause "" fs) ∧
    (∀ fs : FilterSelection, allUnset fs → build_where_clause fs = "1=1") := by
  refine ⟨build_where_clause_eq_spec, ?_⟩
  intro fs h
  rw [h]
  exact build_where_clause_emptyFilters

theorem claim_C4_witness :
    build_where_clause emptyFilters = specClause "" emptyFilters ∧
    build_where_clause emptyFilters = "1=1" :=
  ⟨claim_C4_clause_shape.1 emptyFilters, claim_C4_clause_shape.2 emptyFilters rfl⟩

/-- C9: for every selection and alias, `build_where_clause_with_alias` returns
exactly the clause `build_where_clause` returns with every column reference
qualified by the alias and a dot (both equal `specClause` at their respective
qualifier, including inside the membership conjunct), and both return the
identical literal `1=1` when no field is set. -/
theorem claim_C9_alias_refinement :
    (∀ (fs : FilterSelection) (al : String),
      build_where_clause_with_alias fs al = specClause (al ++ ".") fs) ∧
    (∀ fs : FilterSelection, build_where_clause fs = specClause "" fs) ∧
    (∀ (fs : FilterSelection) (al : String), allUnset fs →
      build_where_clause_with_alias fs al = "1=1" ∧ build_where_clause fs = "1=1") := by
  refine ⟨build_where_clause_with_alias_eq_spec, build_where_clause_eq_spec, ?_⟩
  intro fs al h
  rw [h]
  exact ⟨build_where_clause_with_alias_emptyFilters al, build_where_clause_emptyFilters⟩

theorem claim_C9_witness :
    build_where_clause_with_alias emptyFilters "d" = "1=1" ∧
    build_where_clause emptyFilters = "1=1" :=
  claim_C9_alias_refinement.2.2 emptyFilters "d" rfl

/-- C5: `execute_sql_query` returns the fetched rows when the first attempt
succeeds (one attempt, no reset); on a first-attempt failure it resets the
cached connection and retries exactly once, returning the retry's rows on
success; it propagates the underlying error if and only if both attempts
fail; and every call makes at most two attempts and at most one reset. -/
theorem claim_C5_retry :
    ∀ store : Nat → Except QueryError (List Row),
      (∀ rows, store 0 = .ok rows →
        execute_sql_query store = ⟨some (.ok rows), 1, 0⟩) ∧
      (∀ e rows, store 0 = .error e → store 1 = .ok rows →
        execute_sql_query store = ⟨some (.ok rows), 2, 1⟩) ∧
      (∀ e0 e1, store 0 = .error e0 → store 1 = .error e1 →
        execute_sql_query store = ⟨some (.error e1), 2, 1⟩) ∧
      ((∃ e, (execute_sql_query store).result = some (.error e)) ↔
        ((∃ e, store 0 = .error e) ∧ (∃ e, store 1 = .error e))) ∧
      (execute_sql_query store).attempts ≤ 2 ∧
      (execute_sql_query store).resets ≤ 1 := by
  intro store
  refine ⟨fun rows h => exec_first_ok store rows h,
    fun e rows h0 h1 => exec_retry_ok store e rows h0 h1,
    fun e0 e1 h0 h1 => exec_both_fail store e0 e1 h0 h1, ?_, ?_, ?_⟩ <;>
    rcases h0 : store 0 with e0 | rows0
  · rcases h1 : store 1 with e1 | rows1
    · rw [exec_both_fail store e0 e1 h0 h1]
      exact ⟨fun _ => ⟨⟨e0, rfl⟩, ⟨e1, rfl⟩⟩, fun _ => ⟨e1, rfl⟩⟩
    · rw [exec_retry_ok store e0 rows1 h0 h1]
      constructor
      · rintro ⟨e, he⟩
        simp at he
      · rintro ⟨_, ⟨e, he⟩⟩
        simp at he
  · rw [exec_first_ok store rows0 h0]
    constructor
    · rintro ⟨e, he⟩
      simp at he
    · rintro ⟨⟨e, he⟩, _⟩
      simp at he
  · rcases h1 : store 1 with e1 | rows1
    · rw [exec_both_fail store e0 e1 h0 h1]
    · rw [exec_retry_ok store e0 rows1 h0 h1]
  · rw [exec_first_ok store rows0 h0]
    simp
  · rcases h1 : store 1 with e1 | rows1
    · rw [exec_both_fail store e0 e1 h0 h1]
    · rw [exec_retry_ok store e0 rows1 h0 h1]
  · rw [exec_first_ok store rows0 h0]
    simp

theorem claim_C5_witness :
    execute_sql_query transientStore = ⟨some (.ok [[Cell.int 1]]), 2, 1⟩ :=
  (claim_C5_retry transientStore).2.1 ⟨"transient"⟩ [[Cell.int 1]] rfl rfl

/-- C2 (amended): each aggregate fetcher is a total function of its inputs
(never raises), and when its body raises internally it returns a bundle that
has every expected result key, every scalar count zero, and every table the
columnless empty frame `pd.DataFrame()` — not a frame carrying the result
name's fixed column schema — while signalling the error to the presentation
layer. -/
theorem claim_C2_error_fallback :
    ∀ (ex : String → Except QueryError (List Row)) (fs : FilterSelection),
      (∀ e, get_global_stats_body ex fs = .error e →
        get_global_stats ex fs =
          ({ top_devices := ⟨[], []⟩, subcategory := ⟨[], []⟩, category := ⟨[], []⟩,
             os_dist := ⟨[], []⟩, vendor_dist := ⟨[], []⟩, total_devices := Cell.int 0,
             source_coverage := ⟨[], []⟩, org_dist := ⟨[], []⟩ }, true)) ∧
      (∀ e, get_risk_stats_body ex fs = .error e →
        get_risk_stats ex fs =
          ({ risk_dist := ⟨[], []⟩, risk_critical := ⟨[], []⟩,
             risk_high := ⟨[], []⟩, risk_medium := ⟨[], []⟩ }, true)) ∧
      (∀ e, ex (query_vuln (build_where_clause fs)) = .error e →
        get_vulnerability_stats ex fs =
          ⟨{ vuln_confirmed := ⟨[], []⟩, vuln_potential := ⟨[], []⟩,
             vuln_confirmed_total := 0, vuln_potential_total := 0 },
           true, [query_vuln (build_where_clause fs)]⟩) := by
  intro ex fs
  exact ⟨fun e he => get_global_stats_error ex fs e he,
    fun e he => get_risk_stats_error ex fs e he,
    fun e he => get_vulnerability_stats_error ex fs e he⟩

theorem claim_C2_witness :
    get_global_stats failEx emptyFilters = (globalFallback, true) ∧
    get_risk_stats failEx emptyFilters = (riskFallback, true) ∧
    get_vulnerability_stats failEx emptyFilters =
      ⟨vulnFallback, true, [query_vuln (build_where_clause emptyFilters)]⟩ :=
  ⟨(claim_C2_error_fallback failEx emptyFilters).1 ⟨"connection closed"⟩ rfl,
   (claim_C2_error_fallback failEx emptyFilters).2.1 ⟨"connection closed"⟩ rfl,
   (claim_C2_error_fallback failEx emptyFilters).2.2 ⟨"connection closed"⟩ rfl⟩

/-- C2 counterexample to the claim as stated: after an internal failure the
returned `top_devices` table does NOT carry its fixed column schema — the
fallback is the columnless `pd.DataFrame()`. -/
theorem claim_C2_counterexample :
    (get_global_stats failEx emptyFilters).1.top_devices.cols ≠
      ["vendor", "device_type_family", "model", "count"] := by
  decide

/-- C3 (amended): for every result set all of whose rows carry one of the two
relevance values, the confirmed total plus the potentially-relevant total
computed by `get_vulnerability_stats` equals the sum of all counts of the
result set, and every row lands in exactly one of the two buckets. -/
theorem claim_C3_partition :
    ∀ (fs : FilterSelection) (rows : List Row),
      (∀ r ∈ rows, relCell r = Cell.str "Confirmed" ∨
        relCell r = Cell.str "Potentially Relevant") →
      (get_vulnerability_stats (fun _ => .ok rows) fs).stats.vuln_confirmed_total +
        (get_vulnerability_stats (fun _ => .ok rows) fs).stats.vuln_potential_total =
          sumCounts rows ∧
      (∀ r ∈ rows, isConfirmedRow r = true ↔ isPotentialRow r = false) := by
  intro fs rows h
  have hfetch := get_vulnerability_stats_ok (fun _ => .ok rows) fs rows rfl
  constructor
  · simp only [hfetch, total_if_eq_sum]
    apply sumCounts_filter_partition
    intro r hr
    rcases h r hr with hc | hp
    · exact Or.inl (by simp [isConfirmedRow, hc])
    · exact Or.inr (by simp [isPotentialRow, hp])
  · intro r hr
    exact bucket_dichotomy r (h r hr)

theorem claim_C3_witness :
    ((get_vulnerability_stats (fun _ => .ok sampleVulnRows) emptyFilters).stats.vuln_confirmed_total +
      (get_vulnerability_stats (fun _ => .ok sampleVulnRows) emptyFilters).stats.vuln_potential_total =
        sumCounts sampleVulnRows) ∧
    (∀ r ∈ sampleVulnRows, isConfirmedRow r = true ↔ isPotentialRow r = false) :=
  claim_C3_partition emptyFilters sampleVulnRows (by decide)

/-- C3 counterexample to the claim as stated: on a fetched result set holding
a row whose relevance is neither bucket value, the two bucket totals sum to 0
while the result set's counts sum to 5, and the row lands in no bucket. -/
theorem claim_C3_counterexample :
    ¬((get_vulnerability_stats (fun _ => .ok strayVulnRows) emptyFilters).stats.vuln_confirmed_total +
        (get_vulnerability_stats (fun _ => .ok strayVulnRows) emptyFilters).stats.vuln_potential_total =
      sumCounts strayVulnRows) := by
  decide

/-- C8: `get_vulnerability_stats` issues exactly one query and partitions its
rows locally: each bucket total is the sum of counts over ALL of that bucket's
rows, while each displayed table carries columns advisory_name, source_name,
count and is the bucket truncated to at most its top 100 rows — top by count,
given result sets delivered in the query's count-descending order. -/
theorem claim_C8_single_query_split :
    ∀ (fs : FilterSelection) (rows : List Row),
      ((rows.filter isConfirmedRow).Pairwise (fun a b => countOf b ≤ countOf a)) →
      ((rows.filter isPotentialRow).Pairwise (fun a b => countOf b ≤ countOf a)) →
      (get_vulnerability_stats (fun _ => .ok rows) fs).queries =
        [query_vuln (build_where_clause fs)] ∧
      (get_vulnerability_stats (fun _ => .ok rows) fs).stats.vuln_confirmed_total =
        sumCounts (rows.filter isConfirmedRow) ∧
      (get_vulnerability_stats (fun _ => .ok rows) fs).stats.vuln_potential_total =
        sumCounts (rows.filter isPotentialRow) ∧
      (get_vulnerability_stats (fun _ => .ok rows) fs).stats.vuln_confirmed =
        ⟨["advisory_name", "source_name", "count"],
          ((rows.filter isConfirmedRow).take 100).map projVuln⟩ ∧
      (get_vulnerability_stats (fun _ => .ok rows) fs).stats.vuln_potential =
        ⟨["advisory_name", "source_name", "count"],
          ((rows.filter isPotentialRow).take 100).map projVuln⟩ ∧
      (get_vulnerability_stats (fun _ => .ok rows) fs).stats.vuln_confirmed.rows.length ≤ 100 ∧
      (get_vulnerability_stats (fun _ => .ok rows) fs).stats.vuln_potential.rows.length ≤ 100 ∧
      (∀ a ∈ (rows.filter isConfirmedRow).take 100,
        ∀ b ∈ (rows.filter isConfirmedRow).drop 100, countOf b ≤ countOf a) ∧
      (∀ a ∈ (rows.filter isPotentialRow).take 100,
        ∀ b ∈ (rows.filter isPotentialRow).drop 100, countOf b ≤ countOf a) := by
  intro fs rows hc hp
  have hfetch := get_vulnerability_stats_ok (fun _ => .ok rows) fs rows rfl
  refine ⟨by simp [hfetch], by simp only [hfetch]; exact total_if_eq_sum _,
    by simp only [hfetch]; exact total_if_eq_sum _, ?_, ?_, ?_, ?_,
    pairwise_take_drop hc 100, pairwise_take_drop hp 100⟩
  · simp [hfetch, List.map_take]
  · simp [hfetch, List.map_take]
  · simp [hfetch, List.length_take]
  · simp [hfetch, List.length_take]

theorem claim_C8_witness :
    (get_vulnerability_stats (fun _ => .ok sampleVulnRows) emptyFilters).queries =
      [query_vuln (build_where_clause emptyFilters)] ∧
    (get_vulnerability_stats (fun _ => .ok sampleVulnRows) emptyFilters).stats.vuln_confirmed_total =
      sumCounts (sampleVulnRows.filter isConfirmedRow) :=
  ⟨(claim_C8_single_query_split emptyFilters sampleVulnRows (by decide) (by decide)).1,
   (claim_C8_single_query_split emptyFilters sampleVulnRows (by decide) (by decide)).2.1⟩

/-- C6: for structurally equal selections, a second call through the memoized
fetcher returns the first call's cached bundle without running the fetcher
body again, and the memoized fetcher agrees with the unmemoized one — for
each of `get_global_stats`, `get_risk_stats` and `get_vulnerability_stats`
under any fixed store. -/
theorem claim_C6_memoization :
    ∀ (ex : String → Except QueryError (List Row)) (fs fs' : FilterSelection),
      fs' = fs →
      MemoizedOk (get_global_stats ex) fs fs' ∧
      MemoizedOk (get_risk_stats ex) fs fs' ∧
      MemoizedOk (get_vulnerability_stats ex) fs fs' :=
  fun ex fs fs' h =>
    ⟨cachedCall_memo (get_global_stats ex) fs fs' h,
     cachedCall_memo (get_risk_stats ex) fs fs' h,
     cachedCall_memo (get_vulnerability_stats ex) fs fs' h⟩

theorem claim_C6_witness :
    (cachedCall (get_global_stats okEmptyEx) [] emptyFilters).value =
      get_global_stats okEmptyEx emptyFilters ∧
    (cachedCall (get_global_stats okEmptyEx)
      (cachedCall (get_global_stats okEmptyEx) [] emptyFilters).cache emptyFilters).ran = false :=
  ⟨(((claim_C6_memoization okEmptyEx emptyFilters emptyFilters rfl).1) []
      (by intro p hp; cases hp)).1,
   (((claim_C6_memoization okEmptyEx emptyFilters emptyFilters rfl).1) []
      (by intro p hp; cases hp)).2.2⟩

/-- C10: when every query of the store fails, the memoized `get_global_stats`
caches the empty fallback bundle under the selection key, and a later call
with the structurally equal selection — even against a recovered store —
returns the cached fallback without running the fetcher (hence without
re-executing any query). -/
theorem claim_C10_failure_cached :
    ∀ (fs : FilterSelection) (ex1 ex2 : String → Except QueryError (List Row))
      (e : QueryError), (∀ q, ex1 q = .error e) →
      (cachedCall (get_global_stats ex1) [] fs).value = (globalFallback, true) ∧
      (cachedCall (get_global_stats ex2)
        (cachedCall (get_global_stats ex1) [] fs).cache fs).value = (globalFallback, true) ∧
      (cachedCall (get_global_stats ex2)
        (cachedCall (get_global_stats ex1) [] fs).cache fs).ran = false := by
  intro fs ex1 ex2 e h1
  have hval : get_global_stats ex1 fs = (globalFallback, true) :=
    get_global_stats_error ex1 fs e (get_global_stats_body_allfail ex1 fs e h1)
  have hc1 : cachedCall (get_global_stats ex1) [] fs =
      ⟨(globalFallback, true), [(fs, (globalFallback, true))], true⟩ := by
    simp [cachedCall, lookupCache, hval]
  have hc2 : cachedCall (get_global_stats ex2) [(fs, (globalFallback, true))] fs =
      ⟨(globalFallback, true), [(fs, (globalFallback, true))], false⟩ :=
    cachedCall_hit _ _ _ _ (by simp [lookupCache])
  refine ⟨by simp [hc1], ?_, ?_⟩ <;> simp [hc1, hc2]

theorem claim_C10_witness :
    (cachedCall (get_global_stats failEx) [] emptyFilters).value = (globalFallback, true) ∧
    (cachedCall (get_global_stats okEmptyEx)
      (cachedCall (get_global_stats failEx) [] emptyFilters).cache emptyFilters).value =
        (globalFallback, true) ∧
    (cachedCall (get_global_stats okEmptyEx)
      (cachedCall (get_global_stats failEx) [] emptyFilters).cache emptyFilters).ran = false :=
  claim_C10_failure_cached emptyFilters failEx okEmptyEx ⟨"connection closed"⟩ (fun _ => rfl)

/-- C7: on a session's first render with every filter unset and no submit,
the sequencer auto-triggers one load: the run fetches Global then Risk in
that order, does not fetch Vulnerability in the eager block, and arms the
needs-refresh flag; over any continuation of the session without further
submits, Global and Risk are fetched exactly once, and Vulnerability is
fetched exactly once — on the first run whose Vulnerabilities view renders —
and zero times if that view never renders. -/
theorem claim_C7_first_render_sequencing :
    ∀ (rest : List RenderInput) (vtr : Bool),
      (∀ i ∈ rest, i.submitted = false) →
      renderStep initialSession ⟨false, true, false⟩ =
        (⟨true, true⟩, [.fetchGlobal, .fetchRisk]) ∧
      countE (runSession initialSession (⟨false, true, vtr⟩ :: rest)).2 .fetchGlobal = 1 ∧
      countE (runSession initialSession (⟨false, true, vtr⟩ :: rest)).2 .fetchRisk = 1 ∧
      countE (runSession initialSession (⟨false, true, vtr⟩ :: rest)).2 .fetchVuln =
        (if (⟨false, true, vtr⟩ :: rest : List RenderInput).any
            (fun i => i.vuln_tab_rendered) then 1 else 0) := by
  intro rest vtr hsub
  cases vtr with
  | true =>
    have hstep : renderStep initialSession ⟨false, true, true⟩ =
        (⟨true, false⟩, [.fetchGlobal, .fetchRisk, .fetchVuln]) := by decide
    obtain ⟨hd, hg, hr⟩ := runSession_no_eager rest ⟨true, false⟩ rfl hsub
    have hvuln := runSession_vuln_flag_false rest ⟨true, false⟩ rfl rfl hsub
    refine ⟨by decide, ?_, ?_, ?_⟩ <;>
      simp [runSession, hstep, countE_append, countE, hg, hr, hvuln, List.any_cons]
  | false =>
    have hstep : renderStep initialSession ⟨false, true, false⟩ =
        (⟨true, true⟩, [.fetchGlobal, .fetchRisk]) := by decide
    obtain ⟨hd, hg, hr⟩ := runSession_no_eager rest ⟨true, true⟩ rfl hsub
    have hvuln := runSession_vuln_flag_true rest ⟨true, true⟩ rfl rfl hsub
    refine ⟨by decide, ?_, ?_, ?_⟩ <;>
      simp [runSession, hstep, countE_append, countE, hg, hr, hvuln, List.any_cons]

theorem claim_C7_witness :
    renderStep initialSession ⟨false, true, false⟩ =
      (⟨true, true⟩, [.fetchGlobal, .fetchRisk]) ∧
    countE (runSession initialSession
      (⟨false, true, false⟩ :: [⟨false, false, true⟩])).2 .fetchGlobal = 1 ∧
    countE (runSession initialSession
      (⟨false, true, false⟩ :: [⟨false, false, true⟩])).2 .fetchRisk = 1 ∧
    countE (runSession initialSession
      (⟨false, true, false⟩ :: [⟨false, false, true⟩])).2 .fetchVuln =
      (if (⟨false, true, false⟩ :: [⟨false, false, true⟩] : List RenderInput).any
          (fun i => i.vuln_tab_rendered) then 1 else 0) :=
  claim_C7_first_render_sequencing [⟨false, false, true⟩] false (by decide)
